import Mathlib

/-!
Verification of `bagpy/bagreader.py`: the topic-to-table extraction,
bounded-array flattening and time-indexing core.

Modelling conventions:
* Python numeric scalars (ints and IEEE doubles) are modelled as exact
  rationals `ℚ`.  Every concrete timestamp arithmetic checked below
  (`secs + nsecs * 1e-9` at nanosecond values `0` and `500000000`) is exact
  in IEEE double arithmetic, so the rational model and the double
  computation agree on those inputs.
* A CSV file is modelled as its list of rows, each row a list of cells
  (`Value`); serialisation to delimited text is out of scope.
* Python exceptions (`IndexError`, `KeyError`, `NotImplementedError`) are
  modelled with `Except PyError`.
* Extraction functions that, in Python, read `self.topic_table` and
  `self.reader.read_messages(...)` take the topic table and a per-topic
  record stream as explicit arguments, and return both the list of CSV
  paths (the Python return value) and the written `(path, contents)`
  artifacts (the Python side effect).
-/

namespace Bagreader

/-- A scalar cell of an extracted table: a numeric value, a string,
a pandas datetime derived from numeric seconds, or Python's `None`. -/
inductive Value where
  | num : ℚ → Value
  | str : String → Value
  | datetime : ℚ → Value
  | none : Value
  deriving DecidableEq

/-- The Python exceptions that the modelled code can raise. -/
inductive PyError where
  | indexError : String → PyError
  | keyError : String → PyError
  | notImplementedError : String → PyError
  deriving DecidableEq

/-- A rosbag timestamp `t` with integer fields `t.secs` and `t.nsecs`. -/
structure RosTime where
  secs : ℤ
  nsecs : ℤ
  deriving DecidableEq

/-- The row timestamp `t.secs + t.nsecs*1e-9` computed by every extractor
(modelled exactly over `ℚ`). -/
def toSec (t : RosTime) : ℚ :=
  (t.secs : ℚ) + (t.nsecs : ℚ) * (1 / 1000000000)

/-- `std_msgs/Header` as read by the extractors (`seq`, `frame_id`). -/
structure Header where
  seq : ℤ
  frame_id : String
  deriving DecidableEq

/-- `geometry_msgs/Vector3`. -/
structure Vector3 where
  x : ℚ
  y : ℚ
  z : ℚ
  deriving DecidableEq

/-- `geometry_msgs/Point`. -/
structure Point where
  x : ℚ
  y : ℚ
  z : ℚ
  deriving DecidableEq

/-- `geometry_msgs/Quaternion`. -/
structure Quaternion where
  x : ℚ
  y : ℚ
  z : ℚ
  w : ℚ
  deriving DecidableEq

/-- `geometry_msgs/Twist`. -/
structure Twist where
  linear : Vector3
  angular : Vector3
  deriving DecidableEq

/-- `geometry_msgs/Pose`. -/
structure Pose where
  position : Point
  orientation : Quaternion
  deriving DecidableEq

/-- `geometry_msgs/PoseWithCovariance` (covariance itself is never read). -/
structure PoseWithCovariance where
  pose : Pose
  deriving DecidableEq

/-- `geometry_msgs/TwistWithCovariance` (covariance itself is never read). -/
structure TwistWithCovariance where
  twist : Twist
  deriving DecidableEq

/-- `sensor_msgs/LaserScan`: scalar scan parameters plus the two
variable-length arrays `ranges` and `intensities`. -/
structure LaserScan where
  header : Header
  angle_min : ℚ
  angle_max : ℚ
  angle_increment : ℚ
  time_increment : ℚ
  scan_time : ℚ
  range_min : ℚ
  range_max : ℚ
  ranges : List ℚ
  intensities : List ℚ
  deriving DecidableEq

/-- `nav_msgs/Odometry`. -/
structure Odometry where
  header : Header
  child_frame_id : String
  pose : PoseWithCovariance
  twist : TwistWithCovariance
  deriving DecidableEq

/-- A `std_msgs` scalar message: a single `data` payload. -/
structure StdMsg where
  data : Value
  deriving DecidableEq

/-- One row of `bagreader.topic_table`: topic name, message type name and
message count (frequency is never read by the extractors). -/
structure TopicInfo where
  name : String
  msg_type : String
  message_count : ℤ
  deriving DecidableEq

/-- The per-topic CSV path `datafolder + "/" + topic.replace("/", "-") + ".csv"`. -/
def topicFilePath (datafolder : String) (topicName : String) : String :=
  datafolder ++ "/" ++ topicName.replace "/" "-" ++ ".csv"

/-- The shared shape of the per-topic writing loop of `vel_data`, `std_data`,
`odometry_data`, `wrench_data` and `clock_data`: the header row made from the
column names, then one row per record, in arrival order, each row starting
with the timestamp `t.secs + t.nsecs*1e-9` followed by the flattened fields. -/
def topicCSV {α : Type} (column_names : List String) (flatten : α → List Value)
    (msgs : List (RosTime × α)) : List (List Value) :=
  (column_names.map Value.str) :: msgs.map (fun tm => Value.num (toSec tm.1) :: flatten tm.2)

/-! ### laser_data (`sensor_msgs/LaserScan`) -/

/-- The `column_names` list built by `laser_data`: 10 scalar columns, then
`ranges_0 .. ranges_181`, then `intensities_0 .. intensities_181`. -/
def laser_column_names : List String :=
  ["Time", "header.seq", "header.frame_id", "angle_min", "angle_max",
   "angle_increment", "time_increment", "scan_time", "range_min", "range_max"]
    ++ (List.range 182).map (fun p => "ranges_" ++ toString p)
    ++ (List.range 182).map (fun p => "intensities_" ++ toString p)

/-- One Python list assignment `l[i] = v`: raises `IndexError` when
`i ≥ len(l)` (the index is a non-negative enumerate counter). -/
def assignSlot (l : List (Option ℚ)) (i : Nat) (v : ℚ) : Except PyError (List (Option ℚ)) :=
  if i < l.length then .ok (l.set i (some v))
  else .error (.indexError "list assignment index out of range")

/-- The loop `for ir, ran in enumerate(xs): l[ir] = ran`, entered with
enumerate counter `i`. -/
def fillLoop (l : List (Option ℚ)) (i : Nat) : List ℚ → Except PyError (List (Option ℚ))
  | [] => .ok l
  | v :: vs =>
    match assignSlot l i v with
    | .ok l2 => fillLoop l2 (i + 1) vs
    | .error e => .error e

/-- `slots = [None]*cap` followed by `for ir, ran in enumerate(xs): slots[ir] = ran`.
This is the bounded-array policy of `laser_data` (with `cap = 182`), run
freshly for every record. -/
def fillSlots (cap : Nat) (xs : List ℚ) : Except PyError (List (Option ℚ)) :=
  fillLoop (List.replicate cap Option.none) 0 xs

/-- A filled slot becomes its numeric cell; an unfilled slot stays `None`. -/
def slotValue : Option ℚ → Value
  | some q => .num q
  | Option.none => .none

/-- The nine scalar cells of a `laser_data` row after the timestamp. -/
def laser_scalars (m : LaserScan) : List Value :=
  [.num (m.header.seq : ℚ), .str m.header.frame_id, .num m.angle_min,
   .num m.angle_max, .num m.angle_increment, .num m.time_increment,
   .num m.scan_time, .num m.range_min, .num m.range_max]

/-- The fields of one `laser_data` row after the timestamp: the scalar cells,
then the 182 range slots, then the 182 intensity slots.  The ranges loop runs
before the intensities loop, so a ranges `IndexError` is raised first. -/
def laserFlatten (m : LaserScan) : Except PyError (List Value) :=
  match fillSlots 182 m.ranges with
  | .error e => .error e
  | .ok ranges =>
    match fillSlots 182 m.intensities with
    | .error e => .error e
    | .ok intensities =>
      .ok (laser_scalars m ++ ranges.map slotValue ++ intensities.map slotValue)

/-! ### vel_data (`geometry_msgs/Twist`) -/

/-- The `column_names` list built by `vel_data`. -/
def vel_column_names : List String :=
  ["Time", "linear.x", "linear.y", "linear.z", "angular.x", "angular.y", "angular.z"]

/-- The fields of one `vel_data` row after the timestamp. -/
def velFlatten (m : Twist) : List Value :=
  [.num m.linear.x, .num m.linear.y, .num m.linear.z,
   .num m.angular.x, .num m.angular.y, .num m.angular.z]

/-- `vel_data`: filter the topic table to `geometry_msgs/Twist` topics, write
one CSV per matching topic, return the path list (and the artifacts). -/
def vel_data (datafolder : String) (topic_table : List TopicInfo)
    (read_messages : String → List (RosTime × Twist)) :
    List String × List (String × List (List Value)) :=
  let table_rows := topic_table.filter (fun r => r.msg_type == "geometry_msgs/Twist")
  let files := table_rows.map (fun r =>
    (topicFilePath datafolder r.name, topicCSV vel_column_names velFlatten (read_messages r.name)))
  (files.map Prod.fst, files)

/-! ### std_data (`std_msgs` scalars) -/

/-- The `type_to_look` list of `std_data`, verbatim from the source: note the
stray leading quote in `"\x27std_msgs/Byte"`, the lowercase `i` in the three
`Uint` entries, and the absence of any `UInt64` entry. -/
def std_type_to_look : List String :=
  ["std_msgs/Bool", "\x27std_msgs/Byte", "std_msgs/Float32", "std_msgs/Float64",
   "std_msgs/Int8", "std_msgs/Int16", "std_msgs/Int32",
   "std_msgs/Uint8", "std_msgs/Uint16", "std_msgs/Uint32"]

/-- The ROS-standard spellings of the byte/unsigned-integer `std_msgs` types. -/
def ros_std_uint_types : List String :=
  ["std_msgs/Byte", "std_msgs/UInt8", "std_msgs/UInt16", "std_msgs/UInt32", "std_msgs/UInt64"]

/-- The `column_names` list built by `std_data`. -/
def std_column_names : List String :=
  ["Time", "data"]

/-- The fields of one `std_data` row after the timestamp. -/
def stdFlatten (m : StdMsg) : List Value :=
  [m.data]

/-- `std_data`: filter the topic table with `isin(type_to_look)`, write one
CSV per matching topic, return the path list (and the artifacts). -/
def std_data (datafolder : String) (topic_table : List TopicInfo)
    (read_messages : String → List (RosTime × StdMsg)) :
    List String × List (String × List (List Value)) :=
  let table_rows := topic_table.filter (fun r => std_type_to_look.contains r.msg_type)
  let files := table_rows.map (fun r =>
    (topicFilePath datafolder r.name, topicCSV std_column_names stdFlatten (read_messages r.name)))
  (files.map Prod.fst, files)

/-! ### odometry_data (`nav_msgs/Odometry`) -/

/-- The `column_names` list built by `odometry_data`: 17 entries, including
`angular.x`, `angular.y`, `angular.z`. -/
def odom_column_names : List String :=
  ["Time", "header.seq", "header.frame_id", "child_frame_id",
   "pose.x", "pose.y", "pose.z",
   "orientation.x", "orientation.y", "orientation.z", "orientation.w",
   "linear.x", "linear.y", "linear.z",
   "angular.x", "angular.y", "angular.z"]

/-- The fields of one `odometry_data` row after the timestamp, verbatim from
the source `new_row`: it stops at `msg.twist.twist.linear.z` and never emits
`msg.twist.twist.angular.{x,y,z}` — 13 cells for 16 non-time columns. -/
def odomFlatten (m : Odometry) : List Value :=
  [.num (m.header.seq : ℚ), .str m.header.frame_id, .str m.child_frame_id,
   .num m.pose.pose.position.x, .num m.pose.pose.position.y, .num m.pose.pose.position.z,
   .num m.pose.pose.orientation.x, .num m.pose.pose.orientation.y,
   .num m.pose.pose.orientation.z, .num m.pose.pose.orientation.w,
   .num m.twist.twist.linear.x, .num m.twist.twist.linear.y, .num m.twist.twist.linear.z]

/-- `odometry_data`: filter the topic table to `nav_msgs/Odometry` topics,
write one CSV per matching topic, return the path list (and the artifacts). -/
def odometry_data (datafolder : String) (topic_table : List TopicInfo)
    (read_messages : String → List (RosTime × Odometry)) :
    List String × List (String × List (List Value)) :=
  let table_rows := topic_table.filter (fun r => r.msg_type == "nav_msgs/Odometry")
  let files := table_rows.map (fun r =>
    (topicFilePath datafolder r.name, topicCSV odom_column_names odomFlatten (read_messages r.name)))
  (files.map Prod.fst, files)

/-! ### Unimplemented operations -/

/-- `compressed_images`: `raise NotImplementedError("To be implemented")`. -/
def compressed_images (_kwargs : List (String × String)) : Except PyError (List String) :=
  .error (.notImplementedError "To be implemented")

/-- `pointcloud_data`: `raise NotImplementedError("To be implemented")`. -/
def pointcloud_data (_kwargs : List (String × String)) : Except PyError (List String) :=
  .error (.notImplementedError "To be implemented")

/-- `animate_laser`: `raise NotImplementedError("To be implemented")`. -/
def animate_laser (_u : Unit) : Except PyError Unit :=
  .error (.notImplementedError "To be implemented")

/-- `animate_pointcloud`: `raise NotImplementedError("To be implemented")`. -/
def animate_pointcloud (_u : Unit) : Except PyError Unit :=
  .error (.notImplementedError "To be implemented")

/-! ### timeindex (pandas DataFrame model)

A pandas `DataFrame` is modelled as an ordered association list of named
columns (each a list of cells, one per row) together with a row index. -/

/-- A pandas DataFrame: named columns in order, plus the row index. -/
structure DataFrame where
  cols : List (String × List Value)
  index : List Value
  deriving DecidableEq

/-- `df[name]` read: the first column with the given name, if any. -/
def getCol : List (String × List Value) → String → Option (List Value)
  | [], _ => Option.none
  | c :: rest, name => if c.1 = name then some c.2 else getCol rest name

/-- `df[name] = vals` write: replace the column in place if it exists,
otherwise append a new column at the end (pandas column assignment). -/
def setCol : List (String × List Value) → String → List Value → List (String × List Value)
  | [], name, vals => [(name, vals)]
  | c :: rest, name, vals =>
    if c.1 = name then (name, vals) :: rest else c :: setCol rest name vals

/-- `df.drop([name], axis=1)`: remove every column with the given name.
(`timeindex` only drops a column it has just created, so the pandas
missing-label error is unreachable there.) -/
def dropCol : List (String × List Value) → String → List (String × List Value)
  | [], _ => []
  | c :: rest, name =>
    if c.1 = name then dropCol rest name else c :: dropCol rest name

/-- Modelled from the spec: the helper `dateparse` is referenced by
`timeindex` (`newdf["Time"].apply(dateparse)`) but is not defined anywhere in
the repository source; per the spec it converts a row's numeric
seconds-since-epoch value into a human-readable calendar-timestamp value,
used only to build the intermediate `ClockTime` column that `timeindex`
drops again before returning. -/
def dateparse (v : Value) : Value :=
  match v with
  | .num q => .str ("clock " ++ toString q.num ++ "/" ++ toString q.den)
  | v => v

/-- `pd.to_datetime(col, unit="s")` on one cell: a numeric seconds value
becomes a timestamp. -/
def to_datetime (v : Value) : Value :=
  match v with
  | .num q => .datetime q
  | v => v

/-- `timeindex(df, inplace)`.  Returns the pair
`(returned table, state of the argument table after the call)`: with
`inplace=True` the code mutates `df` itself (`newdf = df` aliases) and the
argument ends in the returned state; with `inplace=False` it works on
`df.copy()` and the argument is left unchanged.  Reading `df["Time"]` raises
`KeyError` when the column is absent. -/
def timeindex (df : DataFrame) (inplace : Bool) : Except PyError (DataFrame × DataFrame) :=
  match getCol df.cols "Time" with
  | Option.none => .error (.keyError "Time")
  | some timeVals =>
    let cols1 := setCol df.cols "Time" timeVals
    let cols2 := setCol cols1 "ClockTime" (timeVals.map dateparse)
    let cols3 := setCol cols2 "Clock" (timeVals.map to_datetime)
    match getCol cols3 "Clock" with
    | Option.none => .error (.keyError "Clock")
    | some clockVals =>
      let newdf : DataFrame := ⟨dropCol cols3 "Clock", clockVals⟩
      let newdf2 : DataFrame := ⟨dropCol newdf.cols "ClockTime", newdf.index⟩
      .ok (newdf2, if inplace then newdf2 else df)

/-! ### Helper lemmas -/

theorem drop_replicate {α : Type} (i n : Nat) (a : α) :
    (List.replicate n a).drop i = List.replicate (n - i) a := by
  induction i generalizing n with
  | zero => simp
  | succ i ih =>
    cases n with
    | zero => simp
    | succ n => simp [List.replicate_succ, ih]

theorem set_append_len (l₁ : List (Option ℚ)) (a : Option ℚ) (t : List (Option ℚ))
    (v : Option ℚ) : (l₁ ++ a :: t).set l₁.length v = l₁ ++ v :: t := by
  induction l₁ with
  | nil => rfl
  | cons b bs ih => simp [List.set, ih]

/-- Running the enumerate loop at position `l₁.length` over buffer `l₁ ++ l₂`:
it succeeds exactly when the elements fit in `l₂`, overwriting its prefix. -/
theorem fillLoop_split (xs : List ℚ) : ∀ l₁ l₂ : List (Option ℚ),
    fillLoop (l₁ ++ l₂) l₁.length xs =
      if xs.length ≤ l₂.length then
        .ok (l₁ ++ xs.map some ++ l₂.drop xs.length)
      else .error (.indexError "list assignment index out of range") := by
  induction xs with
  | nil => intro l₁ l₂; simp [fillLoop]
  | cons v vs ih =>
    intro l₁ l₂
    cases l₂ with
    | nil => simp [fillLoop, assignSlot]
    | cons o t =>
      have hlt : l₁.length < (l₁ ++ o :: t).length := by simp
      have hset := set_append_len l₁ o t (some v)
      simp only [fillLoop, assignSlot, if_pos hlt, hset]
      rw [List.append_cons l₁ (some v) t,
        show l₁.length + 1 = (l₁ ++ [some v]).length by simp, ih]
      by_cases hle : vs.length ≤ t.length
      · rw [if_pos hle, if_pos (by simpa using Nat.succ_le_succ hle)]
        simp
      · rw [if_neg hle, if_neg (by simp; omega)]

/-- The bounded-array policy, characterised: with at most `cap` elements the
slots are the elements followed by `None` padding; with more than `cap`
elements the loop raises `IndexError`. -/
theorem fillSlots_eq (cap : Nat) (xs : List ℚ) :
    fillSlots cap xs =
      if xs.length ≤ cap then
        .ok (xs.map some ++ List.replicate (cap - xs.length) Option.none)
      else .error (.indexError "list assignment index out of range") := by
  have h := fillLoop_split xs [] (List.replicate cap Option.none)
  simpa [fillSlots, drop_replicate] using h

theorem slotValue_some_comp : slotValue ∘ some = Value.num :=
  funext fun _ => rfl

theorem getCol_setCol (cols : List (String × List Value)) (name : String)
    (vals : List Value) : getCol (setCol cols name vals) name = some vals := by
  induction cols with
  | nil => simp [setCol, getCol]
  | cons c rest ih =>
    by_cases h : c.1 = name
    · simp [setCol, getCol, h]
    · simp [setCol, getCol, h, ih]

theorem setCol_same (cols : List (String × List Value)) (name : String)
    (vals : List Value) (h : getCol cols name = some vals) :
    setCol cols name vals = cols := by
  induction cols with
  | nil => simp [getCol] at h
  | cons c rest ih =>
    by_cases hc : c.1 = name
    · rw [getCol, if_pos hc] at h
      rw [setCol, if_pos hc]
      obtain ⟨c1, c2⟩ := c
      simp at hc h
      rw [hc, h]
    · rw [getCol, if_neg hc] at h
      rw [setCol, if_neg hc, ih h]

theorem setCol_not_mem (cols : List (String × List Value)) (name : String)
    (vals : List Value) (h : getCol cols name = Option.none) :
    setCol cols name vals = cols ++ [(name, vals)] := by
  induction cols with
  | nil => rfl
  | cons c rest ih =>
    by_cases hc : c.1 = name
    · rw [getCol, if_pos hc] at h
      exact absurd h (by simp)
    · rw [getCol, if_neg hc] at h
      rw [setCol, if_neg hc, ih h, List.cons_append]

theorem getCol_append_none (l₁ l₂ : List (String × List Value)) (name : String)
    (h : getCol l₁ name = Option.none) :
    getCol (l₁ ++ l₂) name = getCol l₂ name := by
  induction l₁ with
  | nil => rfl
  | cons c rest ih =>
    by_cases hc : c.1 = name
    · rw [getCol, if_pos hc] at h
      exact absurd h (by simp)
    · rw [getCol, if_neg hc] at h
      rw [List.cons_append, getCol, if_neg hc, ih h]

theorem dropCol_append (l₁ l₂ : List (String × List Value)) (name : String) :
    dropCol (l₁ ++ l₂) name = dropCol l₁ name ++ dropCol l₂ name := by
  induction l₁ with
  | nil => rfl
  | cons c rest ih =>
    by_cases hc : c.1 = name
    · rw [List.cons_append, dropCol, if_pos hc, dropCol, if_pos hc, ih]
    · rw [List.cons_append, dropCol, if_neg hc, dropCol, if_neg hc, ih, List.cons_append]

theorem dropCol_not_mem (cols : List (String × List Value)) (name : String)
    (h : getCol cols name = Option.none) : dropCol cols name = cols := by
  induction cols with
  | nil => rfl
  | cons c rest ih =>
    by_cases hc : c.1 = name
    · rw [getCol, if_pos hc] at h
      exact absurd h (by simp)
    · rw [getCol, if_neg hc] at h
      rw [dropCol, if_neg hc, ih h]

/-- `timeindex` when the `Time` column is present: the general shape of the
result, for both `inplace` modes. -/
theorem timeindex_eq (df : DataFrame) (tv : List Value)
    (htv : getCol df.cols "Time" = some tv) (inplace : Bool) :
    timeindex df inplace =
      .ok (⟨dropCol (dropCol (setCol (setCol (setCol df.cols "Time" tv) "ClockTime"
              (tv.map dateparse)) "Clock" (tv.map to_datetime)) "Clock") "ClockTime",
            tv.map to_datetime⟩,
        if inplace then
          ⟨dropCol (dropCol (setCol (setCol (setCol df.cols "Time" tv) "ClockTime"
              (tv.map dateparse)) "Clock" (tv.map to_datetime)) "Clock") "ClockTime",
            tv.map to_datetime⟩
        else df) := by
  simp [timeindex, htv, getCol_setCol]

/-! ### Concrete test data -/

/-- A laser scan whose `ranges` array has 183 elements (capacity + 1). -/
def overflowScan : LaserScan :=
  ⟨⟨0, "laser"⟩, 0, 0, 0, 0, 0, 0, 0, List.replicate 183 0, []⟩

/-- A laser scan with 2 range readings and 0 intensity readings. -/
def shortScan : LaserScan :=
  ⟨⟨7, "scan"⟩, 1, 2, 3, 4, 5, 6, 7, [5, 8], []⟩

/-- One demonstration velocity record. -/
def velDemoRecords : List (RosTime × Twist) :=
  [(⟨3, 0⟩, ⟨⟨1, 2, 3⟩, ⟨4, 5, 6⟩⟩)]

/-- The three velocity-command records of the spec scenario. -/
def c9_records : List (RosTime × Twist) :=
  [(⟨10, 0⟩, ⟨⟨1, 0, 0⟩, ⟨0, 0, 0⟩⟩),
   (⟨10, 500000000⟩, ⟨⟨2, 0, 0⟩, ⟨0, 0, 1⟩⟩),
   (⟨11, 0⟩, ⟨⟨0, 0, 0⟩, ⟨0, 0, 0⟩⟩)]

/-! ### Claims -/

/-- C1: the row/column-count invariant holds for the velocity and std schemas
(`len(flatten(record)) = len(columns) - 1`), but `odometry_data` declares 17
columns while every row it writes has exactly 14 cells (time plus 13 fields:
the source `new_row` stops at `twist.twist.linear.z` and never emits the
declared `angular.x`, `angular.y`, `angular.z` columns).  This refutes the
claim's assertion that the invariant holds for `odometry_data`. -/
theorem odometry_rows_ragged :
    (∀ m : Twist, (velFlatten m).length + 1 = vel_column_names.length) ∧
    (∀ m : StdMsg, (stdFlatten m).length + 1 = std_column_names.length) ∧
    odom_column_names.length = 17 ∧
    (∀ (t : RosTime) (m : Odometry), (Value.num (toSec t) :: odomFlatten m).length = 14) :=
  ⟨fun _ => rfl, fun _ => rfl, rfl, fun _ _ => rfl⟩

/-- C2 counterexample: on a scan whose `ranges` array has 183 elements
(capacity + 1), `laser_data` does not truncate to the first 182 elements —
the assignment `ranges[182] = ran` raises `IndexError`, so the record's
flatten fails instead of producing a row. -/
theorem overflowScan_ranges_length : overflowScan.ranges.length = 183 := by
  rw [show overflowScan.ranges = List.replicate 183 0 from rfl, List.length_replicate]

theorem laser_truncation_counterexample :
    laserFlatten overflowScan = .error (.indexError "list assignment index out of range") := by
  have h : ¬overflowScan.ranges.length ≤ 182 := by rw [overflowScan_ranges_length]; omega
  simp [laserFlatten, fillSlots_eq, h]

/-- C2 (amended): for every laser-scan record whose ranges (or intensities)
array has more than 182 elements, the slot-assignment loop attempts an
out-of-range list assignment and extraction fails with `IndexError`; no
truncated row is produced. -/
theorem laser_overflow_raises (s : LaserScan)
    (h : 182 < s.ranges.length ∨ 182 < s.intensities.length) :
    laserFlatten s = .error (.indexError "list assignment index out of range") := by
  rcases h with h | h
  · simp [laserFlatten, fillSlots_eq, Nat.not_le.mpr h]
  · by_cases hr : s.ranges.length ≤ 182
    · simp [laserFlatten, fillSlots_eq, hr, Nat.not_le.mpr h]
    · simp [laserFlatten, fillSlots_eq, hr]

/-- C2 witness: the amended claim evaluated on the 183-element scan. -/
theorem laser_overflow_raises_witness :
    (182 < overflowScan.ranges.length ∨ 182 < overflowScan.intensities.length) ∧
    laserFlatten overflowScan = .error (.indexError "list assignment index out of range") :=
  ⟨Or.inl (by rw [overflowScan_ranges_length]; omega),
   laser_overflow_raises overflowScan (Or.inl (by rw [overflowScan_ranges_length]; omega))⟩

/-- C4: for a scan whose ranges (resp. intensities) array has `k ≤ 182`
elements, the row holds the `k` elements in the first `k` slots followed by
`182 - k` explicit `None` markers; the slot buffer is rebuilt from the
current record alone (the result is a function of `s` only), so no value is
carried over from a previous record.  With `k = 0` all 182 slots are `None`;
with `k = 182` the `None` padding is empty. -/
theorem laser_pads_short_arrays (s : LaserScan)
    (hr : s.ranges.length ≤ 182) (hi : s.intensities.length ≤ 182) :
    laserFlatten s = .ok (laser_scalars s
      ++ (s.ranges.map Value.num ++ List.replicate (182 - s.ranges.length) Value.none)
      ++ (s.intensities.map Value.num ++ List.replicate (182 - s.intensities.length) Value.none)) := by
  simp [laserFlatten, fillSlots_eq, hr, hi, slotValue, slotValue_some_comp,
    List.map_replicate]

/-- C4 witness: the padding law evaluated on a 2-element / 0-element scan. -/
theorem laser_pads_short_arrays_witness :
    (shortScan.ranges.length ≤ 182 ∧ shortScan.intensities.length ≤ 182) ∧
    laserFlatten shortScan = .ok (laser_scalars shortScan
      ++ (shortScan.ranges.map Value.num ++ List.replicate (182 - shortScan.ranges.length) Value.none)
      ++ (shortScan.intensities.map Value.num ++ List.replicate (182 - shortScan.intensities.length) Value.none)) :=
  ⟨⟨by simp [shortScan], by simp [shortScan]⟩,
   laser_pads_short_arrays shortScan (by simp [shortScan]) (by simp [shortScan])⟩

/-- C5: for every record stream, the extraction output's first row is the
schema's column list (written as the header), it occurs exactly once, and a
topic with zero records produces a file holding only that header row. -/
theorem extraction_header_once {α : Type} (column_names : List String)
    (flatten : α → List Value) (msgs : List (RosTime × α)) (h : column_names ≠ []) :
    (topicCSV column_names flatten msgs).head? = some (column_names.map Value.str) ∧
    (topicCSV column_names flatten msgs).count (column_names.map Value.str) = 1 ∧
    topicCSV column_names flatten ([] : List (RosTime × α)) = [column_names.map Value.str] := by
  obtain ⟨c, cs, rfl⟩ := List.exists_cons_of_ne_nil h
  refine ⟨rfl, ?_, rfl⟩
  have hz : ((msgs.map fun tm => Value.num (toSec tm.1) :: flatten tm.2).count
      (((c :: cs).map Value.str))) = 0 := by
    rw [List.count_eq_zero]
    intro hmem
    rw [List.mem_map] at hmem
    obtain ⟨tm, -, heq⟩ := hmem
    simp at heq
  simp only [List.map_cons] at hz
  simp [topicCSV, List.count_cons_self, hz]

/-- C5 witness: the header law evaluated at the velocity schema. -/
theorem extraction_header_once_witness :
    vel_column_names ≠ [] ∧
    ((topicCSV vel_column_names velFlatten velDemoRecords).head? =
        some (vel_column_names.map Value.str) ∧
      (topicCSV vel_column_names velFlatten velDemoRecords).count
        (vel_column_names.map Value.str) = 1 ∧
      topicCSV vel_column_names velFlatten ([] : List (RosTime × Twist)) =
        [vel_column_names.map Value.str]) :=
  ⟨by decide, extraction_header_once vel_column_names velFlatten velDemoRecords (by decide)⟩

/-- C8: every invocation of `compressed_images`, `pointcloud_data`,
`animate_laser` and `animate_pointcloud` raises
`NotImplementedError("To be implemented")`, for all inputs. -/
theorem unimplemented_operations_raise :
    (∀ kwargs, compressed_images kwargs = .error (.notImplementedError "To be implemented")) ∧
    (∀ kwargs, pointcloud_data kwargs = .error (.notImplementedError "To be implemented")) ∧
    (∀ u, animate_laser u = .error (.notImplementedError "To be implemented")) ∧
    (∀ u, animate_pointcloud u = .error (.notImplementedError "To be implemented")) :=
  ⟨fun _ => rfl, fun _ => rfl, fun _ => rfl, fun _ => rfl⟩

/-- C9: on the spec's three velocity-command records, extraction produces the
header plus exactly three rows, in arrival order, with times `10`, `10.5`,
`11` (`secs + nsecs * 1e-9`; exact in IEEE double arithmetic for these
inputs, so the rational model agrees with the Python computation) and the
six vector columns unchanged. -/
theorem vel_three_record_scenario :
    topicCSV vel_column_names velFlatten c9_records =
      [vel_column_names.map Value.str,
       [.num 10, .num 1, .num 0, .num 0, .num 0, .num 0, .num 0],
       [.num 10.5, .num 2, .num 0, .num 0, .num 0, .num 0, .num 1],
       [.num 11, .num 0, .num 0, .num 0, .num 0, .num 0, .num 0]] := by
  simp only [topicCSV, c9_records, velFlatten, toSec, List.map_cons, List.map_nil]
  norm_num

/-- C3: a zero-row table that has the `Time` column (and no column already
named `Clock` or `ClockTime`, names the indexer reserves for its derived
columns) round-trips through `timeindex` without error, yielding a zero-row
indexed table with the declared columns unchanged and an empty index; the
input table is also left unchanged (copy mode). -/
theorem timeindex_empty_table (df : DataFrame)
    (htime : getCol df.cols "Time" = some ([] : List Value))
    (hz : ∀ c ∈ df.cols, c.2 = ([] : List Value))
    (hck : getCol df.cols "Clock" = Option.none)
    (hct : getCol df.cols "ClockTime" = Option.none) :
    timeindex df false = .ok (⟨df.cols, []⟩, df) ∧
    ∀ c ∈ df.cols, c.2 = ([] : List Value) := by
  refine ⟨?_, hz⟩
  have h1 : setCol df.cols "Time" ([] : List Value) = df.cols := setCol_same _ _ _ htime
  have h2 : setCol df.cols "ClockTime" ([] : List Value) =
      df.cols ++ [("ClockTime", [])] := setCol_not_mem _ _ _ hct
  have hck2 : getCol (df.cols ++ [("ClockTime", ([] : List Value))]) "Clock" = Option.none := by
    rw [getCol_append_none _ _ _ hck]
    simp [getCol]
  have h3 : setCol (df.cols ++ [("ClockTime", ([] : List Value))]) "Clock" ([] : List Value) =
      (df.cols ++ [("ClockTime", [])]) ++ [("Clock", [])] := setCol_not_mem _ _ _ hck2
  rw [timeindex_eq df [] htime false]
  simp only [List.map_nil]
  rw [h1, h2, h3, dropCol_append, dropCol_not_mem _ _ hck2]
  simp [dropCol, dropCol_append, dropCol_not_mem _ _ hct]

/-- A zero-row two-column table used to witness C3. -/
def emptyDemoTable : DataFrame :=
  ⟨[("Time", []), ("data", [])], []⟩

/-- C3 witness: the zero-row round-trip evaluated on a concrete table. -/
theorem timeindex_empty_table_witness :
    (getCol emptyDemoTable.cols "Time" = some ([] : List Value) ∧
      (∀ c ∈ emptyDemoTable.cols, c.2 = ([] : List Value)) ∧
      getCol emptyDemoTable.cols "Clock" = Option.none ∧
      getCol emptyDemoTable.cols "ClockTime" = Option.none) ∧
    (timeindex emptyDemoTable false = .ok (⟨emptyDemoTable.cols, []⟩, emptyDemoTable) ∧
      ∀ c ∈ emptyDemoTable.cols, c.2 = ([] : List Value)) :=
  ⟨⟨by decide, by decide, by decide, by decide⟩,
   timeindex_empty_table emptyDemoTable (by decide) (by decide) (by decide) (by decide)⟩

/-- C6: when the topic inventory has no `geometry_msgs/Twist` topic,
`vel_data` returns the empty path list, raises no error, and writes no
artifact. -/
theorem vel_data_unmatched (datafolder : String) (topic_table : List TopicInfo)
    (read_messages : String → List (RosTime × Twist))
    (h : ∀ r ∈ topic_table, r.msg_type ≠ "geometry_msgs/Twist") :
    vel_data datafolder topic_table read_messages = ([], []) := by
  have hf : topic_table.filter (fun r => r.msg_type == "geometry_msgs/Twist") = [] := by
    rw [List.filter_eq_nil_iff]
    intro r hr
    simpa using h r hr
  simp [vel_data, hf]

/-- A one-topic inventory with no velocity topic, used to witness C6. -/
def odomOnlyTable : List TopicInfo :=
  [⟨"/odom", "nav_msgs/Odometry", 5⟩]

/-- C6 witness: `vel_data` on an inventory holding only an odometry topic. -/
theorem vel_data_unmatched_witness :
    (∀ r ∈ odomOnlyTable, r.msg_type ≠ "geometry_msgs/Twist") ∧
    vel_data "data" odomOnlyTable (fun _ => []) = ([], []) :=
  ⟨by decide, vel_data_unmatched "data" odomOnlyTable (fun _ => []) (by decide)⟩

/-- C7: on any table with a `Time` column, `timeindex` with `inplace=True`
returns the very table its argument has been mutated into (the returned
table and the argument's post-call state are one and the same), while with
`inplace=False` it returns the same transformed content but leaves the
argument exactly as it was before the call. -/
theorem timeindex_inplace_vs_copy (df : DataFrame)
    (h : (getCol df.cols "Time").isSome) :
    ∃ res, timeindex df true = .ok (res, res) ∧ timeindex df false = .ok (res, df) := by
  obtain ⟨tv, htv⟩ := Option.isSome_iff_exists.mp h
  refine ⟨⟨dropCol (dropCol (setCol (setCol (setCol df.cols "Time" tv) "ClockTime"
      (tv.map dateparse)) "Clock" (tv.map to_datetime)) "Clock") "ClockTime",
      tv.map to_datetime⟩, ?_, ?_⟩
  · rw [timeindex_eq df tv htv true]
    rfl
  · rw [timeindex_eq df tv htv false]
    rfl

/-- A one-row table with a `Time` column, used to witness C7. -/
def oneRowDemoTable : DataFrame :=
  ⟨[("Time", [Value.num 5]), ("data", [Value.num 7])], [Value.num 0]⟩

/-- C7 witness: the aliasing/copy law evaluated on a concrete table. -/
theorem timeindex_inplace_vs_copy_witness :
    (getCol oneRowDemoTable.cols "Time").isSome ∧
    (∃ res, timeindex oneRowDemoTable true = .ok (res, res) ∧
      timeindex oneRowDemoTable false = .ok (res, oneRowDemoTable)) :=
  ⟨by decide, timeindex_inplace_vs_copy oneRowDemoTable (by decide)⟩

/-- C10: none of the ROS-standard type names `std_msgs/Byte`,
`std_msgs/UInt8`, `std_msgs/UInt16`, `std_msgs/UInt32`, `std_msgs/UInt64` is
in `std_data`'s filter list (stray leading quote on the `Byte` entry,
lowercase `i` in the `Uint` entries, no `UInt64` entry at all), so an
inventory whose topics all carry those type names yields zero matching
topics: no output path and no artifact. -/
theorem std_data_skips_ros_spellings (datafolder : String)
    (topic_table : List TopicInfo) (read_messages : String → List (RosTime × StdMsg))
    (h : ∀ r ∈ topic_table, r.msg_type ∈ ros_std_uint_types) :
    (∀ s ∈ ros_std_uint_types, s ∉ std_type_to_look) ∧
    std_data datafolder topic_table read_messages = ([], []) := by
  have hnot : ∀ s ∈ ros_std_uint_types, s ∉ std_type_to_look := by decide
  refine ⟨hnot, ?_⟩
  simp [std_data]
  intro r hr hc
  exact hnot r.msg_type (h r hr) hc

/-- A topic inventory carrying only ROS-standard byte/uint type names,
used to witness C10. -/
def rosUintTable : List TopicInfo :=
  [⟨"/b", "std_msgs/Byte", 1⟩, ⟨"/u8", "std_msgs/UInt8", 2⟩,
   ⟨"/u16", "std_msgs/UInt16", 3⟩, ⟨"/u32", "std_msgs/UInt32", 4⟩,
   ⟨"/u64", "std_msgs/UInt64", 5⟩]

/-- C10 witness: `std_data` on the ROS-standard-typed inventory. -/
theorem std_data_skips_ros_spellings_witness :
    (∀ r ∈ rosUintTable, r.msg_type ∈ ros_std_uint_types) ∧
    ((∀ s ∈ ros_std_uint_types, s ∉ std_type_to_look) ∧
      std_data "data" rosUintTable (fun _ => []) = ([], [])) :=
  ⟨by decide, std_data_skips_ros_spellings "data" rosUintTable (fun _ => []) (by decide)⟩

end Bagreader
